import Mathlib

/-!
Shallow embedding of the pod-based sandbox orchestrator
(`pandasai_pod/sandbox_api.py`, `pandasai_pod/pod_manager.py`,
`pandasai_pod/pod_sandbox.py`) and proofs about its behaviour.

External effects (the Kubernetes API, the HTTP call into the pod, and the
Python `exec` of submitted code) are modelled as explicit oracle inputs;
everything the repository code itself decides (branching, state updates,
message formatting, the order of scheduler calls) is translated directly
from the source.
-/

namespace SandboxApi

/-- A Python value, as far as the wire protocol needs it. -/
inductive PyValue where
  | pyNone
  | pyBool (b : Bool)
  | pyInt (n : Int)
  | pyStr (s : String)
  | pyList (xs : List PyValue)
  | pyDict (entries : List (String × PyValue))
deriving Repr

/-- Request model `CodeExecutionRequest` from sandbox_api.py. -/
structure CodeExecutionRequest where
  code : String
  timeout : Nat := 30
  session_id : String
deriving Repr

/-- Response model `CodeExecutionResponse` from sandbox_api.py: `error` defaults to None,
`result` to None. `execution_time` is modelled as an abstract duration. -/
structure CodeExecutionResponse where
  success : Bool
  result : Option PyValue := none
  error : Option String := none
  execution_time : Nat := 0
deriving Repr

/-- The keys of the builtin whitelist built by the `/execute` handler
(sandbox_api.py lines 88-97), in source order. -/
def SAFE_BUILTINS : List String :=
  ["abs", "all", "any", "bool",
   "dict", "enumerate", "filter",
   "float", "int", "len", "list",
   "map", "max", "min", "print",
   "range", "round", "sorted",
   "str", "sum", "tuple", "type",
   "zip"]

/-- The keys of the `safe_modules` dict merged into the execution globals
(sandbox_api.py lines 102-116), in source order. -/
def SAFE_MODULE_KEYS : List String :=
  ["pandas", "pd", "numpy", "np", "matplotlib", "plt", "seaborn", "plotly", "os"]

/-- Outcome of running `exec(request.code, exec_globals, exec_locals)` on the
worker, raced against the asyncio timeout. The Python interpreter itself is
the oracle here: `finished` carries the final `exec_locals` binding list,
`raised` carries the exception type name and its message. -/
inductive ExecOutcome where
  | finished (execLocals : List (String × PyValue))
  | timedOut
  | raised (exnType : String) (exnMsg : String)
deriving Repr

/-- Dictionary lookup `exec_locals.get(key)`: first binding for `key`, if any. -/
def lookupLocal (execLocals : List (String × PyValue)) (key : String) : Option PyValue :=
  match execLocals.find? (fun kv => kv.1 == key) with
  | some kv => some kv.2
  | none => none

/-- The `/execute` handler body (sandbox_api.py lines 77-160), given the
outcome of the `exec` race. Every branch of the source returns a structured
`CodeExecutionResponse`; nothing escapes the outer `except Exception`. -/
def execute_code (req : CodeExecutionRequest) (outcome : ExecOutcome)
    (elapsed : Nat) : CodeExecutionResponse :=
  match outcome with
  | .finished execLocals =>
      { success := true,
        result := some ((lookupLocal execLocals "result").getD
          (PyValue.pyStr "Code executed successfully")),
        error := none,
        execution_time := elapsed }
  | .timedOut =>
      { success := false,
        result := none,
        error := some ("Execution timed out after " ++ toString req.timeout ++ " seconds"),
        execution_time := elapsed }
  | .raised exnType exnMsg =>
      { success := false,
        result := none,
        error := some (exnType ++ ": " ++ exnMsg),
        execution_time := elapsed }

end SandboxApi

namespace PodManager

/-- A `kubernetes.client.rest.ApiException`: HTTP status plus diagnostic text. -/
structure ApiException where
  status : Nat
  reason : String
deriving Repr, DecidableEq

/-- The slice of a `V1Pod` object the manager reads: metadata name, phase,
status conditions as (type, status) pairs, pod IP, restart count, start time. -/
structure V1Pod where
  name : String
  phase : String
  conditions : List (String × String)
  pod_ip : Option String
  restart_count : Nat
  start_time : Option String
deriving Repr, DecidableEq

/-- State held by `PodSandboxManager` (pod_manager.py lines 15-32): all
resource names are derived from the session id; `_started` begins False. -/
structure PodSandboxManager where
  ns : String
  image : String
  session_id : String
  pod_name : String
  service_name : String
  pod_ip : Option String
  started : Bool
deriving Repr, DecidableEq

/-- Constructor `PodSandboxManager(namespace, image)` with the freshly drawn uuid prefix
passed in explicitly (the source takes `str(uuid.uuid4())[:8]`). -/
def PodSandboxManager.init (ns image session_id : String) : PodSandboxManager :=
  { ns := ns, image := image, session_id := session_id,
    pod_name := "python-sandbox-" ++ session_id,
    service_name := "python-sandbox-" ++ session_id,
    pod_ip := none, started := false }

/-- One mutating or routing call the manager issues against the cluster or the
pod. Readiness-poll reads are carried by the poll oracle instead, since they
change nothing. `postExecute` records both the JSON payload timeout and the
aiohttp network timeout of the `/execute` call. -/
inductive SchedAction where
  | createPod (name ns : String)
  | createService (name ns : String)
  | deleteService (name ns : String)
  | deletePod (name ns : String)
  | postExecute (url : String) (payloadTimeout netTimeout : Nat)
deriving Repr, DecidableEq

/-- Readiness predicate `_is_pod_ready` (pod_manager.py lines 289-297). -/
def is_pod_ready (pod : V1Pod) : Bool :=
  pod.conditions.any (fun c => c.1 == "Ready" && c.2 == "True")

/-- Outcomes of the scheduler calls `start_pod` makes: pod creation, the
readiness polls (one `read_namespaced_pod` result per loop iteration), and
service creation. `none` means the call succeeded. -/
structure StartEnv where
  createPod : Option ApiException
  polls : Nat → Except ApiException V1Pod
  createService : Option ApiException

/-- Outcomes of the two deletion calls `stop_pod` makes. -/
structure StopEnv where
  deleteService : Option ApiException
  deletePod : Option ApiException

/-- Loop body of `_wait_for_pod_ready` (pod_manager.py lines 268-287):
read the pod, swallow `ApiException`, stop at the first ready pod, give up
when the fuel (the 60-iteration `range`) runs out. -/
def waitLoop (polls : Nat → Except ApiException V1Pod) : Nat → Nat → Option V1Pod
  | _, 0 => none
  | i, fuel + 1 =>
    match polls i with
    | .ok pod => if is_pod_ready pod then some pod else waitLoop polls (i + 1) fuel
    | .error _ => waitLoop polls (i + 1) fuel

/-- Wrapper `_wait_for_pod_ready` with its default `timeout=60`:
returns the ready pod, or `none` for the closing `raise RuntimeError`. -/
def wait_for_pod_ready (polls : Nat → Except ApiException V1Pod)
    (timeout : Nat := 60) : Option V1Pod :=
  waitLoop polls 0 timeout

/-- Result dicts of `start_pod`. -/
inductive StartResult where
  | alreadyRunning (pod_name : String)
  | started (pod_name service_name session_id : String)
deriving Repr, DecidableEq

/-- Result dicts of `stop_pod`. -/
inductive StopResult where
  | notRunning
  | stopped (pod_name : String)
deriving Repr, DecidableEq

/-- Operation `start_pod` (pod_manager.py lines 34-73). Returns the
result (or the raised `RuntimeError` message), the post-call manager state,
and the scheduler calls attempted. An `ApiException` from pod or service
creation is re-raised as `RuntimeError("Pod creation failed: ...")`; the
readiness `RuntimeError` propagates untouched; no branch deletes anything. -/
def start_pod (m : PodSandboxManager) (env : StartEnv) :
    Except String StartResult × PodSandboxManager × List SchedAction :=
  if m.started then
    (Except.ok (.alreadyRunning m.pod_name), m, [])
  else
    match env.createPod with
    | some e =>
        (Except.error ("Pod creation failed: " ++ e.reason), m,
         [.createPod m.pod_name m.ns])
    | none =>
      match wait_for_pod_ready env.polls 60 with
      | none =>
          (Except.error ("Pod " ++ m.pod_name ++ " failed to become ready within 60s"),
           m, [.createPod m.pod_name m.ns])
      | some pod =>
        match env.createService with
        | some e =>
            (Except.error ("Pod creation failed: " ++ e.reason),
             { m with pod_ip := pod.pod_ip },
             [.createPod m.pod_name m.ns, .createService m.service_name m.ns])
        | none =>
            (Except.ok (.started m.pod_name m.service_name m.session_id),
             { m with pod_ip := pod.pod_ip, started := true },
             [.createPod m.pod_name m.ns, .createService m.service_name m.ns])

/-- Operation `stop_pod` (pod_manager.py lines 75-109). The service
deletion is attempted first and its `ApiException` (any status) is caught
inside and only logged; an `ApiException` from the pod deletion, 404
included, reaches the outer handler and is re-raised as
`RuntimeError("Pod deletion failed: ...")`, leaving `_started` True. -/
def stop_pod (m : PodSandboxManager) (env : StopEnv) :
    Except String StopResult × PodSandboxManager × List SchedAction :=
  if !m.started then
    (Except.ok .notRunning, m, [])
  else
    match env.deletePod with
    | some e =>
        (Except.error ("Pod deletion failed: " ++ e.reason), m,
         [.deleteService m.service_name m.ns, .deletePod m.pod_name m.ns])
    | none =>
        (Except.ok (.stopped m.pod_name), { m with started := false },
         [.deleteService m.service_name m.ns, .deletePod m.pod_name m.ns])

/-- Operation `restart_pod` (pod_manager.py lines 144-148):
`stop_pod` then `start_pod`; an error from `stop_pod` propagates and
`start_pod` is never reached. -/
def restart_pod (m : PodSandboxManager) (stopEnv : StopEnv) (startEnv : StartEnv) :
    Except String StartResult × PodSandboxManager × List SchedAction :=
  match stop_pod m stopEnv with
  | (Except.error e, m1, tr1) => (Except.error e, m1, tr1)
  | (Except.ok _, m1, tr1) =>
    match start_pod m1 startEnv with
    | (res, m2, tr2) => (res, m2, tr1 ++ tr2)

/-- Outcome of the aiohttp POST to the Execution Endpoint: an HTTP 200 with
the decoded JSON body, a non-200 status with its body text, the
`asyncio.TimeoutError`, or some other client exception. -/
inductive PostOutcome where
  | ok (body : SandboxApi.CodeExecutionResponse)
  | httpError (status : Nat) (text : String)
  | timeout
  | clientError (msg : String)

/-- Oracles consumed by one `execute_code` call: the POST outcome plus the
scheduler outcomes for the forced restart taken on timeout. -/
structure ExecuteEnv where
  post : PostOutcome
  stopEnv : StopEnv
  startEnv : StartEnv

/-- The service URL built at pod_manager.py line 120. -/
def executeUrl (m : PodSandboxManager) : String :=
  "http://" ++ m.service_name ++ "." ++ m.ns ++ ".svc.cluster.local:8080/execute"

/-- Operation `execute_code` (pod_manager.py lines 111-142). The same
`timeout` argument is used both as the JSON payload field sent to the
endpoint and as the aiohttp network timeout. On HTTP 200 the decoded body is
returned as-is; on other statuses a `RuntimeError` is raised; on
`asyncio.TimeoutError` the pod is force-restarted and then
`RuntimeError("Code execution timed out, pod restarted")` is raised (an
error from the restart itself propagates instead). -/
def execute_code (m : PodSandboxManager) (code : String) (timeout : Nat)
    (env : ExecuteEnv) :
    Except String SandboxApi.CodeExecutionResponse × PodSandboxManager × List SchedAction :=
  if !m.started then
    (Except.error "Pod is not running. Call start_pod() first.", m, [])
  else
    let postAct := SchedAction.postExecute (executeUrl m) timeout timeout
    match env.post with
    | .ok body => (Except.ok body, m, [postAct])
    | .httpError _ text =>
        (Except.error ("Code execution failed: " ++ text), m, [postAct])
    | .clientError msg => (Except.error msg, m, [postAct])
    | .timeout =>
      match restart_pod m env.stopEnv env.startEnv with
      | (Except.error e, m1, tr1) => (Except.error e, m1, postAct :: tr1)
      | (Except.ok _, m1, tr1) =>
          (Except.error "Code execution timed out, pod restarted", m1, postAct :: tr1)

/-- Result dicts of `get_pod_status` (pod_sandbox.py adds `not_initialized`). -/
inductive StatusResult where
  | found (name phase : String) (ready : Bool) (restarts : Nat) (started_at : Option String)
  | notFound
  | notInitialized
deriving Repr, DecidableEq

/-- Operation `get_pod_status` (pod_manager.py lines 150-169): reads
the pod named `self.pod_name`; a 404 maps to `not_found`, any other
`ApiException` is re-raised. The Kubernetes read returns the object under
the requested name, so the reported name is `m.pod_name`. -/
def get_pod_status (m : PodSandboxManager) (readResult : Except ApiException V1Pod) :
    Except String StatusResult :=
  match readResult with
  | .ok pod =>
      Except.ok (.found m.pod_name pod.phase (is_pod_ready pod) pod.restart_count
        pod.start_time)
  | .error e =>
      if e.status == 404 then Except.ok .notFound
      else Except.error ("ApiException: " ++ e.reason)

end PodManager

namespace PodFacade

open PodManager

/-- Modelled from the spec: the `pandasai.sandbox.Sandbox` base class, which
holds the `_started` flag, is not among the sources; per the data model a
session is UNINITIALIZED at construction, so the flag starts False. -/
def sandboxBaseStartedInit : Bool := false

/-- State held by the facade `PodSandbox` (pod_sandbox.py lines 19-29). -/
structure PodSandbox where
  ns : String
  image : String
  timeout : Nat
  started : Bool
  pod_manager : Option PodSandboxManager

/-- A fresh `PodSandbox(namespace, image, timeout)`. -/
def mkPodSandbox (ns image : String) (timeout : Nat) : PodSandbox :=
  { ns := ns, image := image, timeout := timeout,
    started := sandboxBaseStartedInit, pod_manager := none }

/-- Facade operation `start` (pod_sandbox.py lines 31-56): when not yet started,
builds a fresh manager (fresh session id) and drives `start_pod` to
completion; the manager is assigned to `self._pod_manager` before the await,
so it stays assigned even when `start_pod` raises, while `_started` is set
only on success. -/
def PodSandbox.start (s : PodSandbox) (session_id : String) (env : StartEnv) :
    Except String Unit × PodSandbox × List SchedAction :=
  if s.started then
    (Except.ok (), s, [])
  else
    match start_pod (PodSandboxManager.init s.ns s.image session_id) env with
    | (Except.error e, m1, tr) =>
        (Except.error e, { s with pod_manager := some m1 }, tr)
    | (Except.ok _, m1, tr) =>
        (Except.ok (), { s with pod_manager := some m1, started := true }, tr)

/-- Facade operation `stop` (pod_sandbox.py lines 58-74): only acts when both
`_started` and `_pod_manager` are set; on success clears both; an error from
`stop_pod` propagates and leaves `_started` True. -/
def PodSandbox.stop (s : PodSandbox) (env : StopEnv) :
    Except String Unit × PodSandbox × List SchedAction :=
  if s.started then
    match s.pod_manager with
    | none => (Except.ok (), s, [])
    | some m =>
      match stop_pod m env with
      | (Except.error e, m1, tr) =>
          (Except.error e, { s with pod_manager := some m1 }, tr)
      | (Except.ok _, _, tr) =>
          (Except.ok (), { s with started := false, pod_manager := none }, tr)
  else
    (Except.ok (), s, [])

/-- Oracles consumed by one facade `_exec_code` call: the manager call
environment plus the scheduler outcomes for the recovery restart the facade
performs on any failure. -/
structure FacadeExecEnv where
  execEnv : ExecuteEnv
  restartStop : StopEnv
  restartStart : StartEnv

/-- Facade operation `_exec_code` (pod_sandbox.py lines 76-106), the caller-facing
execute path. A `success=False` body from the manager is turned into a
raised `RuntimeError(result.get("error", "Unknown execution error"))` inside
the `try`, so it falls into the same `except` as a manager exception: the
facade restarts the pod and re-raises
`RuntimeError("Code execution failed: ...")`. An error raised by the
recovery restart itself propagates instead (the run_until_complete branch of
`_restart_pod`). -/
def PodSandbox.exec_code (s : PodSandbox) (code : String) (fenv : FacadeExecEnv) :
    Except String (Option SandboxApi.PyValue) × PodSandbox × List SchedAction :=
  if !s.started then
    (Except.error "Pod sandbox is not started", s, [])
  else
    match s.pod_manager with
    | none => (Except.error "Pod sandbox is not started", s, [])
    | some m =>
      match execute_code m code s.timeout fenv.execEnv with
      | (Except.ok body, m1, tr) =>
        if body.success then
          (Except.ok body.result, { s with pod_manager := some m1 }, tr)
        else
          match restart_pod m1 fenv.restartStop fenv.restartStart with
          | (Except.error re, m2, tr2) =>
              (Except.error re, { s with pod_manager := some m2 }, tr ++ tr2)
          | (Except.ok _, m2, tr2) =>
              (Except.error ("Code execution failed: " ++
                 (body.error.getD "Unknown execution error")),
               { s with pod_manager := some m2 }, tr ++ tr2)
      | (Except.error e, m1, tr) =>
        match restart_pod m1 fenv.restartStop fenv.restartStart with
        | (Except.error re, m2, tr2) =>
            (Except.error re, { s with pod_manager := some m2 }, tr ++ tr2)
        | (Except.ok _, m2, tr2) =>
            (Except.error ("Code execution failed: " ++ e),
             { s with pod_manager := some m2 }, tr ++ tr2)

/-- Facade operation `get_status` (pod_sandbox.py lines 120-132). -/
def PodSandbox.get_status (s : PodSandbox) (readResult : Except ApiException V1Pod) :
    Except String StatusResult :=
  match s.pod_manager with
  | none => Except.ok .notInitialized
  | some m => get_pod_status m readResult

end PodFacade

namespace Fixtures

open PodManager PodFacade

/-- A concrete session id, as drawn from `str(uuid.uuid4())[:8]`. -/
def sid0 : String := "abc12345"

/-- A concrete `/execute` request submitting `result = 1/0`. -/
def req0 : SandboxApi.CodeExecutionRequest :=
  { code := "result = 1/0", timeout := 30, session_id := sid0 }

/-- The endpoint response to `req0` when the exec raises `ZeroDivisionError`. -/
def body0 : SandboxApi.CodeExecutionResponse :=
  SandboxApi.execute_code req0 (.raised "ZeroDivisionError" "division by zero") 1

/-- A pod object whose Ready condition is True. -/
def readyPod : V1Pod :=
  { name := "python-sandbox-abc12345", phase := "Running",
    conditions := [("Ready", "True")], pod_ip := some "10.0.0.5",
    restart_count := 0, start_time := none }

/-- A scheduler in which creation succeeds and the pod is ready at once. -/
def okStartEnv : StartEnv :=
  { createPod := none, polls := fun _ => .ok readyPod, createService := none }

/-- A scheduler in which both deletions succeed. -/
def okStopEnv : StopEnv := { deleteService := none, deletePod := none }

/-- A scheduler in which pod creation succeeds but every readiness poll errors. -/
def neverReadyEnv : StartEnv :=
  { createPod := none,
    polls := fun _ => .error { status := 500, reason := "boom" },
    createService := none }

/-- A scheduler in which the service deletion succeeds but the pod is already
gone, so its deletion raises a 404 `ApiException`. -/
def stop404Env : StopEnv :=
  { deleteService := none, deletePod := some { status := 404, reason := "Not Found" } }

/-- A freshly constructed manager for namespace default and image sandbox:test. -/
def m0 : PodSandboxManager := PodSandboxManager.init "default" "sandbox:test" sid0

/-- The same manager once `start_pod` has succeeded. -/
def mStarted : PodSandboxManager := { m0 with started := true }

/-- A facade holding the started manager. -/
def sStarted : PodSandbox :=
  { ns := "default", image := "sandbox:test", timeout := 30,
    started := true, pod_manager := some mStarted }

/-- Manager-call environment delivering `body0` over HTTP 200. -/
def envC1 : ExecuteEnv := { post := .ok body0, stopEnv := okStopEnv, startEnv := okStartEnv }

/-- Facade-call environment for the same call, with a healthy scheduler for
the recovery restart. -/
def fenvC1 : FacadeExecEnv :=
  { execEnv := envC1, restartStop := okStopEnv, restartStart := okStartEnv }

/-- Manager-call environment in which the POST times out and the scheduler is
healthy for the forced restart. -/
def envTimeout : ExecuteEnv := { post := .timeout, stopEnv := okStopEnv, startEnv := okStartEnv }

/-- Manager-call environment delivering a plain successful body. -/
def envOkSimple : ExecuteEnv :=
  { post := .ok { success := true, result := some (.pyInt 42), error := none, execution_time := 0 },
    stopEnv := okStopEnv, startEnv := okStartEnv }

/-- A freshly constructed facade. -/
def s0 : PodSandbox := mkPodSandbox "default" "sandbox:test" 30

/-- The facade `start` call against the never-ready scheduler. -/
def startFail : Except String Unit × PodSandbox × List SchedAction :=
  PodSandbox.start s0 sid0 neverReadyEnv

end Fixtures

/-- A string with a nonempty prefix is nonempty. -/
theorem ne_empty_of_left_ne_empty (a b : String) (ha : a ≠ "") : a ++ b ≠ "" := by
  intro hab
  apply ha
  apply String.ext
  have hd : a.data ++ b.data = ([] : List Char) := by
    have := congrArg String.data hab
    rwa [String.data_append] at this
  exact (List.append_eq_nil.mp hd).1

/-- A string with a nonempty suffix is nonempty. -/
theorem ne_empty_of_right_ne_empty (a b : String) (hb : b ≠ "") : a ++ b ≠ "" := by
  intro hab
  apply hb
  apply String.ext
  have hd : a.data ++ b.data = ([] : List Char) := by
    have := congrArg String.data hab
    rwa [String.data_append] at this
  exact (List.append_eq_nil.mp hd).2

namespace PodManager

/-- Boolean readiness of one poll outcome: an `ApiException` counts as not
ready, otherwise the pod conditions decide. -/
def pollIsReady (r : Except ApiException V1Pod) : Bool :=
  match r with
  | .ok pod => is_pod_ready pod
  | .error _ => false

end PodManager

namespace PodManager

/-- When no poll in the window reports ready, the wait loop exhausts its fuel
and gives up. -/
theorem waitLoop_none_of_never_ready (polls : Nat → Except ApiException V1Pod) :
    ∀ (fuel i : Nat), (∀ j, j < fuel → pollIsReady (polls (i + j)) = false) →
      waitLoop polls i fuel = none := by
  intro fuel
  induction fuel with
  | zero => intro i _; rfl
  | succ f ih =>
    intro i h
    have h0 : pollIsReady (polls i) = false := by
      have := h 0 (Nat.succ_pos f)
      simpa using this
    have hrest : ∀ j, j < f → pollIsReady (polls (i + 1 + j)) = false := by
      intro j hj
      have := h (j + 1) (Nat.succ_lt_succ hj)
      have harith : i + (j + 1) = i + 1 + j := by omega
      rwa [harith] at this
    cases hp : polls i with
    | ok pod =>
      have hnr : is_pod_ready pod = false := by
        have := h0
        rw [hp] at this
        simpa [pollIsReady] using this
      simp [waitLoop, hp, hnr]
      exact ih (i + 1) hrest
    | error e =>
      simp [waitLoop, hp]
      exact ih (i + 1) hrest

/-- The wait loop inspects only the polls inside its fuel window. -/
theorem waitLoop_congr (polls polls' : Nat → Except ApiException V1Pod) :
    ∀ (fuel i : Nat), (∀ j, j < fuel → polls (i + j) = polls' (i + j)) →
      waitLoop polls i fuel = waitLoop polls' i fuel := by
  intro fuel
  induction fuel with
  | zero => intro i _; rfl
  | succ f ih =>
    intro i h
    have h0 : polls i = polls' i := by
      have := h 0 (Nat.succ_pos f)
      simpa using this
    have hrest : ∀ j, j < f → polls (i + 1 + j) = polls' (i + 1 + j) := by
      intro j hj
      have := h (j + 1) (Nat.succ_lt_succ hj)
      have harith : i + (j + 1) = i + 1 + j := by omega
      rwa [harith] at this
    cases hp : polls' i with
    | ok pod =>
      simp only [waitLoop, h0, hp]
      split
      · rfl
      · exact ih (i + 1) hrest
    | error e =>
      simp [waitLoop, h0, hp]
      exact ih (i + 1) hrest

/-- When the very first poll already reports a ready pod, the wait returns it. -/
theorem waitLoop_first_ready (polls : Nat → Except ApiException V1Pod)
    (i fuel : Nat) (pod : V1Pod)
    (hpoll : polls i = .ok pod) (hready : is_pod_ready pod = true) (hfuel : fuel ≠ 0) :
    waitLoop polls i fuel = some pod := by
  cases fuel with
  | zero => exact absurd rfl hfuel
  | succ f => simp [waitLoop, hpoll, hready]

end PodManager

/-- C6: when the submitted code runs to completion, the Execution Endpoint
reports success and returns exactly the value bound to the conventional
`result` variable in the executed namespace, unmodified; when the code binds
no such variable it returns the fixed placeholder string instead. -/
theorem endpoint_result_roundtrip (req : SandboxApi.CodeExecutionRequest)
    (execLocals : List (String × SandboxApi.PyValue)) (elapsed : Nat) :
    (SandboxApi.execute_code req (.finished execLocals) elapsed).success = true ∧
    (∀ v, SandboxApi.lookupLocal execLocals "result" = some v →
      (SandboxApi.execute_code req (.finished execLocals) elapsed).result = some v) ∧
    (SandboxApi.lookupLocal execLocals "result" = none →
      (SandboxApi.execute_code req (.finished execLocals) elapsed).result =
        some (SandboxApi.PyValue.pyStr "Code executed successfully")) := by
  refine ⟨rfl, ?_, ?_⟩
  · intro v hv
    simp [SandboxApi.execute_code, hv]
  · intro h
    simp [SandboxApi.execute_code, h]

/-- Witness for C6: `result = 42` round-trips to 42; a literal dict bound to
`result` is returned verbatim; code binding no `result` yields the
placeholder string. -/
theorem endpoint_result_roundtrip_witness :
    (SandboxApi.execute_code { code := "result = 42", session_id := "s" }
      (.finished [("result", .pyInt 42)]) 0).result =
      some (SandboxApi.PyValue.pyInt 42) ∧
    (SandboxApi.execute_code { code := "result = dict(type=1)", session_id := "s" }
      (.finished [("result", .pyDict [("type", .pyStr "number"), ("value", .pyInt 3)])]) 0).result =
      some (SandboxApi.PyValue.pyDict [("type", .pyStr "number"), ("value", .pyInt 3)]) ∧
    (SandboxApi.execute_code { code := "x = 1", session_id := "s" }
      (.finished [("x", .pyInt 1)]) 0).result =
      some (SandboxApi.PyValue.pyStr "Code executed successfully") :=
  ⟨(endpoint_result_roundtrip { code := "result = 42", session_id := "s" }
      [("result", .pyInt 42)] 0).2.1 _ rfl,
   (endpoint_result_roundtrip { code := "result = dict(type=1)", session_id := "s" }
      [("result", .pyDict [("type", .pyStr "number"), ("value", .pyInt 3)])] 0).2.1 _ rfl,
   (endpoint_result_roundtrip { code := "x = 1", session_id := "s" }
      [("x", .pyInt 1)] 0).2.2 rfl⟩

/-- C7: on any exception raised by the submitted code, the Execution Endpoint
returns a structured failure whose error is exactly the exception type name,
a colon and space, and the message, with no result and no stack trace; in
particular `result = 1/0` with its `ZeroDivisionError` yields the error
string `ZeroDivisionError: division by zero`. -/
theorem endpoint_error_format :
    (∀ (req : SandboxApi.CodeExecutionRequest) (exnType exnMsg : String) (elapsed : Nat),
      (SandboxApi.execute_code req (.raised exnType exnMsg) elapsed).success = false ∧
      (SandboxApi.execute_code req (.raised exnType exnMsg) elapsed).error =
        some (exnType ++ ": " ++ exnMsg) ∧
      (SandboxApi.execute_code req (.raised exnType exnMsg) elapsed).result = none) ∧
    (SandboxApi.execute_code Fixtures.req0
      (.raised "ZeroDivisionError" "division by zero") 1).success = false ∧
    (SandboxApi.execute_code Fixtures.req0
      (.raised "ZeroDivisionError" "division by zero") 1).error =
      some "ZeroDivisionError: division by zero" :=
  ⟨fun _ _ _ _ => ⟨rfl, rfl, rfl⟩, rfl, by decide⟩

/-- C9: for every request the `/execute` handler returns a structured
response (the handler is a total function of the execution outcome), in
which the error field is None exactly when success is True, and every
failure carries a nonempty error string. -/
theorem endpoint_error_iff_failure (req : SandboxApi.CodeExecutionRequest)
    (outcome : SandboxApi.ExecOutcome) (elapsed : Nat) :
    ((SandboxApi.execute_code req outcome elapsed).error = none ↔
      (SandboxApi.execute_code req outcome elapsed).success = true) ∧
    ((SandboxApi.execute_code req outcome elapsed).success = false →
      ∃ e, (SandboxApi.execute_code req outcome elapsed).error = some e ∧ e ≠ "") := by
  cases outcome with
  | finished execLocals =>
    constructor
    · simp [SandboxApi.execute_code]
    · intro h
      simp [SandboxApi.execute_code] at h
  | timedOut =>
    constructor
    · simp [SandboxApi.execute_code]
    · intro _
      refine ⟨_, rfl, ?_⟩
      exact ne_empty_of_left_ne_empty _ _ (ne_empty_of_left_ne_empty _ _ (by decide))
  | raised exnType exnMsg =>
    constructor
    · simp [SandboxApi.execute_code]
    · intro _
      refine ⟨_, rfl, ?_⟩
      exact ne_empty_of_left_ne_empty _ _
        (ne_empty_of_right_ne_empty _ _ (by decide))

/-- Witness for C9: a concrete timed-out execution carries a nonempty error. -/
theorem endpoint_error_iff_failure_witness :
    ∃ e, (SandboxApi.execute_code { code := "while True: pass", timeout := 5, session_id := "s" }
      .timedOut 5).error = some e ∧ e ≠ "" :=
  (endpoint_error_iff_failure
    { code := "while True: pass", timeout := 5, session_id := "s" } .timedOut 5).2 rfl

/-- Counterexample to C10 as stated: the builtin whitelist built by the
`/execute` handler has 23 entries, not 22. -/
theorem safe_builtins_count_cex :
    SandboxApi.SAFE_BUILTINS.length = 23 ∧
    (SandboxApi.SAFE_BUILTINS.length == 22) = false := by
  constructor <;> rfl

/-- C10 (amended): the restricted namespace whitelists a fixed set of 23
built-in functions that excludes the importer dunder, open, eval and exec;
the module handles are exactly the nine pre-bound keys pandas, pd, numpy,
np, matplotlib, plt, seaborn, plotly and the wrapped os substitute; and an
ImportError raised for an importing statement executed without a reachable
importer builtin comes back as a structured execution failure. -/
theorem restricted_namespace_allowlist :
    SandboxApi.SAFE_BUILTINS.length = 23 ∧
    (SandboxApi.SAFE_BUILTINS.contains "__import__") = false ∧
    (SandboxApi.SAFE_BUILTINS.contains "open") = false ∧
    (SandboxApi.SAFE_BUILTINS.contains "eval") = false ∧
    (SandboxApi.SAFE_BUILTINS.contains "exec") = false ∧
    SandboxApi.SAFE_MODULE_KEYS =
      ["pandas", "pd", "numpy", "np", "matplotlib", "plt", "seaborn", "plotly", "os"] ∧
    (∀ (req : SandboxApi.CodeExecutionRequest) (msg : String) (elapsed : Nat),
      (SandboxApi.execute_code req (.raised "ImportError" msg) elapsed).success = false ∧
      (SandboxApi.execute_code req (.raised "ImportError" msg) elapsed).error =
        some ("ImportError: " ++ msg)) := by
  refine ⟨rfl, ?_, ?_, ?_, ?_, rfl, fun _ _ _ => ⟨rfl, rfl⟩⟩ <;> decide

/-- C5: the manager `execute_code` records exactly one `/execute` POST whose
aiohttp network timeout equals the wall-clock deadline placed in the JSON
payload (both are the same `timeout` argument), so the network timeout does
not strictly exceed the deadline sent to the Execution Endpoint. -/
theorem execute_network_timeout_equals_deadline
    (m : PodManager.PodSandboxManager) (code : String) (t : Nat)
    (env : PodManager.ExecuteEnv) (h : m.started = true) :
    ∃ tail, (PodManager.execute_code m code t env).2.2 =
      PodManager.SchedAction.postExecute (PodManager.executeUrl m) t t :: tail := by
  unfold PodManager.execute_code
  rw [h]
  cases hp : env.post with
  | ok body => exact ⟨[], rfl⟩
  | httpError st text => exact ⟨[], rfl⟩
  | timeout =>
    rcases hr : PodManager.restart_pod m env.stopEnv env.startEnv with ⟨res, m1, tr1⟩
    cases res with
    | error e => exact ⟨tr1, by simp [hr]⟩
    | ok r => exact ⟨tr1, by simp [hr]⟩
  | clientError msg => exact ⟨[], rfl⟩

/-- Witness for C5: a concrete call with timeout 30 posts with network
timeout 30 against a payload deadline of 30. -/
theorem execute_network_timeout_equals_deadline_witness :
    ∃ tail, (PodManager.execute_code Fixtures.mStarted "result = 1" 30 Fixtures.envOkSimple).2.2 =
      PodManager.SchedAction.postExecute (PodManager.executeUrl Fixtures.mStarted) 30 30 :: tail :=
  execute_network_timeout_equals_deadline Fixtures.mStarted "result = 1" 30
    Fixtures.envOkSimple rfl

namespace PodManager

/-- On a started manager whose pod deletion succeeds, `stop_pod` deletes the
service then the pod, reports stopped, and clears the started flag. -/
theorem stop_pod_ok (m : PodSandboxManager) (env : StopEnv)
    (hm : m.started = true) (hdel : env.deletePod = none) :
    stop_pod m env =
      (Except.ok (StopResult.stopped m.pod_name), { m with started := false },
       [SchedAction.deleteService m.service_name m.ns,
        SchedAction.deletePod m.pod_name m.ns]) := by
  simp [stop_pod, hm, hdel]

/-- On a stopped manager whose pod creation succeeds and whose readiness wait
finds a ready pod, `start_pod` creates pod then service and sets the flag. -/
theorem start_pod_ok (m : PodSandboxManager) (env : StartEnv) (pod : V1Pod)
    (hm : m.started = false) (hcp : env.createPod = none)
    (hw : wait_for_pod_ready env.polls 60 = some pod)
    (hcs : env.createService = none) :
    start_pod m env =
      (Except.ok (StartResult.started m.pod_name m.service_name m.session_id),
       { m with pod_ip := pod.pod_ip, started := true },
       [SchedAction.createPod m.pod_name m.ns,
        SchedAction.createService m.service_name m.ns]) := by
  simp [start_pod, hm, hcp, hw, hcs]

end PodManager

/-- Counterexample to C1 as stated: for an orderly failure response from the
Execution Endpoint (HTTP 200, success False, the `result = 1/0` error), the
caller-facing facade method raises a RuntimeError instead of returning the
structured result, and its trace shows the recovery restart it triggered
(delete service, delete pod, create pod, create service). -/
theorem facade_orderly_failure_raises_cex :
    (PodFacade.PodSandbox.exec_code Fixtures.sStarted "result = 1/0" Fixtures.fenvC1).1 =
      Except.error "Code execution failed: ZeroDivisionError: division by zero" ∧
    (PodFacade.PodSandbox.exec_code Fixtures.sStarted "result = 1/0" Fixtures.fenvC1).2.2 =
      [PodManager.SchedAction.postExecute
         "http://python-sandbox-abc12345.default.svc.cluster.local:8080/execute" 30 30,
       PodManager.SchedAction.deleteService "python-sandbox-abc12345" "default",
       PodManager.SchedAction.deletePod "python-sandbox-abc12345" "default",
       PodManager.SchedAction.createPod "python-sandbox-abc12345" "default",
       PodManager.SchedAction.createService "python-sandbox-abc12345" "default"] := by
  constructor <;> rfl

/-- C1 (amended): for code that raises inside the restricted namespace, the
manager `execute_code` returns the structured endpoint response as data,
with success False and a nonempty error, raising nothing, issuing no
scheduler call beyond the POST itself (no restart), and leaving the manager
state unchanged and started; the facade, in contrast, converts such a
response into a raised RuntimeError after restarting the pod. -/
theorem orderly_failure_returned_as_data
    (m : PodManager.PodSandboxManager) (code : String) (t : Nat)
    (env : PodManager.ExecuteEnv) (req : SandboxApi.CodeExecutionRequest)
    (exnType exnMsg : String) (elapsed : Nat)
    (hm : m.started = true)
    (hpost : env.post = PodManager.PostOutcome.ok
      (SandboxApi.execute_code req (.raised exnType exnMsg) elapsed)) :
    ∃ body, PodManager.execute_code m code t env =
        (Except.ok body, m,
         [PodManager.SchedAction.postExecute (PodManager.executeUrl m) t t]) ∧
      body.success = false ∧
      ∃ e, body.error = some e ∧ e ≠ "" := by
  refine ⟨SandboxApi.execute_code req (.raised exnType exnMsg) elapsed, ?_, rfl, ?_⟩
  · unfold PodManager.execute_code
    rw [hm, hpost]
    rfl
  · exact ⟨_, rfl, ne_empty_of_left_ne_empty _ _
      (ne_empty_of_right_ne_empty _ _ (by decide))⟩

/-- Witness for C1 (amended): the `result = 1/0` failure body flows back as
data through the manager with the state untouched. -/
theorem orderly_failure_returned_as_data_witness :
    ∃ body, PodManager.execute_code Fixtures.mStarted "result = 1/0" 30 Fixtures.envC1 =
        (Except.ok body, Fixtures.mStarted,
         [PodManager.SchedAction.postExecute
           (PodManager.executeUrl Fixtures.mStarted) 30 30]) ∧
      body.success = false ∧ ∃ e, body.error = some e ∧ e ≠ "" :=
  orderly_failure_returned_as_data Fixtures.mStarted "result = 1/0" 30 Fixtures.envC1
    Fixtures.req0 "ZeroDivisionError" "division by zero" 1 rfl rfl

/-- Counterexample to C2 as stated: after the timeout-triggered automatic
restart, the manager still carries the same workload, service and session
identifiers, and a status call still reports the old workload name. -/
theorem restart_same_identifiers_cex :
    (PodManager.execute_code Fixtures.mStarted "import time; time.sleep(10)" 5
      Fixtures.envTimeout).1 = Except.error "Code execution timed out, pod restarted" ∧
    (PodManager.execute_code Fixtures.mStarted "import time; time.sleep(10)" 5
      Fixtures.envTimeout).2.1.pod_name = Fixtures.mStarted.pod_name ∧
    (PodManager.execute_code Fixtures.mStarted "import time; time.sleep(10)" 5
      Fixtures.envTimeout).2.1.service_name = Fixtures.mStarted.service_name ∧
    (PodManager.execute_code Fixtures.mStarted "import time; time.sleep(10)" 5
      Fixtures.envTimeout).2.1.session_id = Fixtures.mStarted.session_id ∧
    PodManager.get_pod_status
      (PodManager.execute_code Fixtures.mStarted "import time; time.sleep(10)" 5
        Fixtures.envTimeout).2.1 (.ok Fixtures.readyPod) =
      Except.ok (PodManager.StatusResult.found "python-sandbox-abc12345" "Running" true 0 none) := by
  refine ⟨rfl, rfl, rfl, rfl, rfl⟩

/-- C2 (amended): when `execute_code` hits the network timeout, it stops and
recreates the pod under the same manager instance and then raises; the
freshly provisioned session reuses the identical workload name, service name
and session id, so a subsequent status call reports the same workload name
as before the call. -/
theorem timeout_restart_preserves_identifiers
    (m : PodManager.PodSandboxManager) (code : String) (t : Nat)
    (env : PodManager.ExecuteEnv) (pod : PodManager.V1Pod)
    (hm : m.started = true) (hpost : env.post = PodManager.PostOutcome.timeout)
    (hdel : env.stopEnv.deletePod = none)
    (hcp : env.startEnv.createPod = none)
    (hw : PodManager.wait_for_pod_ready env.startEnv.polls 60 = some pod)
    (hcs : env.startEnv.createService = none) :
    (PodManager.execute_code m code t env).1 =
      Except.error "Code execution timed out, pod restarted" ∧
    (PodManager.execute_code m code t env).2.1.pod_name = m.pod_name ∧
    (PodManager.execute_code m code t env).2.1.service_name = m.service_name ∧
    (PodManager.execute_code m code t env).2.1.session_id = m.session_id ∧
    (PodManager.execute_code m code t env).2.1.started = true := by
  have hstop := PodManager.stop_pod_ok m env.stopEnv hm hdel
  have hstart := PodManager.start_pod_ok { m with started := false } env.startEnv pod
    rfl hcp hw hcs
  have hexec : PodManager.execute_code m code t env =
      (Except.error "Code execution timed out, pod restarted",
       { m with pod_ip := pod.pod_ip, started := true },
       PodManager.SchedAction.postExecute (PodManager.executeUrl m) t t ::
         ([PodManager.SchedAction.deleteService m.service_name m.ns,
           PodManager.SchedAction.deletePod m.pod_name m.ns] ++
          [PodManager.SchedAction.createPod m.pod_name m.ns,
           PodManager.SchedAction.createService m.service_name m.ns])) := by
    simp [PodManager.execute_code, PodManager.restart_pod, hm, hpost, hstop, hstart]
  rw [hexec]
  exact ⟨rfl, rfl, rfl, rfl, rfl⟩

/-- Witness for C2 (amended): the concrete timed-out call restarts in place
and keeps the name python-sandbox-abc12345. -/
theorem timeout_restart_preserves_identifiers_witness :
    (PodManager.execute_code Fixtures.mStarted "import time; time.sleep(10)" 5
      Fixtures.envTimeout).1 = Except.error "Code execution timed out, pod restarted" ∧
    (PodManager.execute_code Fixtures.mStarted "import time; time.sleep(10)" 5
      Fixtures.envTimeout).2.1.pod_name = Fixtures.mStarted.pod_name := by
  have h := timeout_restart_preserves_identifiers Fixtures.mStarted
    "import time; time.sleep(10)" 5 Fixtures.envTimeout Fixtures.readyPod
    rfl rfl rfl rfl rfl rfl
  exact ⟨h.1, h.2.1⟩

/-- Counterexample to C3 as stated: a 404 from the pod deletion is not
treated as success: `stop_pod` surfaces it as a RuntimeError and the session
is not marked stopped (the started flag stays set). -/
theorem stop_pod_404_raises_cex :
    PodManager.stop_pod Fixtures.mStarted Fixtures.stop404Env =
      (Except.error "Pod deletion failed: Not Found", Fixtures.mStarted,
       [PodManager.SchedAction.deleteService "python-sandbox-abc12345" "default",
        PodManager.SchedAction.deletePod "python-sandbox-abc12345" "default"]) := rfl

/-- C3 (amended): on a started session `stop_pod` always deletes the service
before the workload; the outcome of the service deletion, 404 or any other
scheduler error, is tolerated and never changes the result; when the pod
deletion succeeds the session is marked stopped; but an `ApiException` from
the pod deletion, 404 included, is surfaced as a RuntimeError and leaves the
session marked started. -/
theorem stop_service_first_pod_errors_surface
    (m : PodManager.PodSandboxManager) (env : PodManager.StopEnv) (hm : m.started = true) :
    (PodManager.stop_pod m env).2.2 =
      [PodManager.SchedAction.deleteService m.service_name m.ns,
       PodManager.SchedAction.deletePod m.pod_name m.ns] ∧
    (∀ env2 : PodManager.StopEnv, env2.deletePod = env.deletePod →
      PodManager.stop_pod m env2 = PodManager.stop_pod m env) ∧
    (env.deletePod = none →
      PodManager.stop_pod m env =
        (Except.ok (PodManager.StopResult.stopped m.pod_name), { m with started := false },
         [PodManager.SchedAction.deleteService m.service_name m.ns,
          PodManager.SchedAction.deletePod m.pod_name m.ns])) ∧
    (∀ e, env.deletePod = some e →
      (PodManager.stop_pod m env).1 =
        Except.error ("Pod deletion failed: " ++ e.reason) ∧
      (PodManager.stop_pod m env).2.1 = m) := by
  refine ⟨?_, ?_, ?_, ?_⟩
  · cases hdp : env.deletePod <;> simp [PodManager.stop_pod, hm, hdp]
  · intro env2 h2
    cases hdp : env.deletePod with
    | none =>
      rw [hdp] at h2
      simp [PodManager.stop_pod, hm, hdp, h2]
    | some e =>
      rw [hdp] at h2
      simp [PodManager.stop_pod, hm, hdp, h2]
  · intro h
    exact PodManager.stop_pod_ok m env hm h
  · intro e he
    constructor <;> simp [PodManager.stop_pod, hm, he]

/-- Witness for C3 (amended): the concrete healthy teardown deletes the
service, then the pod, and marks the session stopped. -/
theorem stop_service_first_pod_errors_surface_witness :
    PodManager.stop_pod Fixtures.mStarted Fixtures.okStopEnv =
      (Except.ok (PodManager.StopResult.stopped "python-sandbox-abc12345"),
       { Fixtures.mStarted with started := false },
       [PodManager.SchedAction.deleteService "python-sandbox-abc12345" "default",
        PodManager.SchedAction.deletePod "python-sandbox-abc12345" "default"]) := by
  have h := (stop_service_first_pod_errors_surface Fixtures.mStarted
    Fixtures.okStopEnv rfl).2.2.1 rfl
  exact h

/-- Counterexample to C4 as stated: when the readiness window expires, the
facade start raises and leaves the created pod behind (only a create action
in the trace); the subsequent caller stop call is a no-op that issues no
deletion at all, so it does not clean the leftover resources up. -/
theorem failed_start_stop_no_cleanup_cex :
    Fixtures.startFail.1 =
      Except.error "Pod python-sandbox-abc12345 failed to become ready within 60s" ∧
    Fixtures.startFail.2.2 =
      [PodManager.SchedAction.createPod "python-sandbox-abc12345" "default"] ∧
    PodFacade.PodSandbox.stop Fixtures.startFail.2.1 Fixtures.okStopEnv =
      (Except.ok (), Fixtures.startFail.2.1, []) := by
  refine ⟨rfl, rfl, rfl⟩

/-- C4 (amended): the readiness wait consults at most 60 polls at the fixed
interval; when none reports ready, `start_pod` abandons provisioning with a
RuntimeError, leaves the created resources in place (no delete action), and
leaves the started flag unset — as a consequence the subsequent stop, on the
manager or on the facade, is a no-op that does not clean the leftovers up. -/
theorem readiness_timeout_abandons_without_cleanup
    (m : PodManager.PodSandboxManager) (env : PodManager.StartEnv)
    (hm : m.started = false) (hcp : env.createPod = none)
    (hnr : ∀ j, j < 60 → PodManager.pollIsReady (env.polls j) = false) :
    PodManager.start_pod m env =
      (Except.error ("Pod " ++ m.pod_name ++ " failed to become ready within 60s"), m,
       [PodManager.SchedAction.createPod m.pod_name m.ns]) ∧
    (∀ env2 : PodManager.StopEnv,
      PodManager.stop_pod m env2 = (Except.ok PodManager.StopResult.notRunning, m, [])) ∧
    (∀ (s : PodFacade.PodSandbox) (env2 : PodManager.StopEnv), s.started = false →
      PodFacade.PodSandbox.stop s env2 = (Except.ok (), s, [])) ∧
    (∀ polls polls' : Nat → Except PodManager.ApiException PodManager.V1Pod,
      (∀ j, j < 60 → polls j = polls' j) →
      PodManager.wait_for_pod_ready polls 60 = PodManager.wait_for_pod_ready polls' 60) := by
  have hw : PodManager.wait_for_pod_ready env.polls 60 = none := by
    refine PodManager.waitLoop_none_of_never_ready env.polls 60 0 ?_
    intro j hj
    simpa using hnr j hj
  refine ⟨?_, ?_, ?_, ?_⟩
  · simp [PodManager.start_pod, hm, hcp, hw]
  · intro env2
    simp [PodManager.stop_pod, hm]
  · intro s env2 hs
    simp [PodFacade.PodSandbox.stop, hs]
  · intro polls polls' hagree
    refine PodManager.waitLoop_congr polls polls' 60 0 ?_
    intro j hj
    simpa using hagree j hj

/-- Witness for C4 (amended): the never-ready scheduler makes the concrete
start fail after the bounded wait without any deletion. -/
theorem readiness_timeout_abandons_without_cleanup_witness :
    PodManager.start_pod Fixtures.m0 Fixtures.neverReadyEnv =
      (Except.error "Pod python-sandbox-abc12345 failed to become ready within 60s",
       Fixtures.m0,
       [PodManager.SchedAction.createPod "python-sandbox-abc12345" "default"]) := by
  have h := (readiness_timeout_abandons_without_cleanup Fixtures.m0 Fixtures.neverReadyEnv
    rfl rfl (fun j hj => rfl)).1
  exact h

/-- C8: stop is idempotent on both layers: a manager or facade stop on a
session that was never started is a safe no-op; under a scheduler whose pod
deletion succeeds, the first stop returns without raising, and the second
stop in a row is a no-op that issues no scheduler call and never raises. -/
theorem stop_idempotent
    (m : PodManager.PodSandboxManager) (s : PodFacade.PodSandbox)
    (env env2 fenv fenv2 : PodManager.StopEnv)
    (hdel : env.deletePod = none) (hfdel : fenv.deletePod = none) :
    (m.started = false → ∀ e : PodManager.StopEnv,
      PodManager.stop_pod m e = (Except.ok PodManager.StopResult.notRunning, m, [])) ∧
    (∃ r, (PodManager.stop_pod m env).1 = Except.ok r) ∧
    PodManager.stop_pod (PodManager.stop_pod m env).2.1 env2 =
      (Except.ok PodManager.StopResult.notRunning, (PodManager.stop_pod m env).2.1, []) ∧
    (s.started = false → ∀ e : PodManager.StopEnv,
      PodFacade.PodSandbox.stop s e = (Except.ok (), s, [])) ∧
    (∃ u, (PodFacade.PodSandbox.stop s fenv).1 = Except.ok u) ∧
    PodFacade.PodSandbox.stop (PodFacade.PodSandbox.stop s fenv).2.1 fenv2 =
      (Except.ok (), (PodFacade.PodSandbox.stop s fenv).2.1, []) := by
  have mgrNoOp : ∀ (mm : PodManager.PodSandboxManager) (e : PodManager.StopEnv),
      mm.started = false →
      PodManager.stop_pod mm e = (Except.ok PodManager.StopResult.notRunning, mm, []) := by
    intro mm e hmm
    simp [PodManager.stop_pod, hmm]
  have facNoOp : ∀ (ss : PodFacade.PodSandbox) (e : PodManager.StopEnv),
      ss.started = false →
      PodFacade.PodSandbox.stop ss e = (Except.ok (), ss, []) := by
    intro ss e hss
    simp [PodFacade.PodSandbox.stop, hss]
  have mgrFirst : ∃ r, (PodManager.stop_pod m env).1 = Except.ok r := by
    cases hm : m.started with
    | false => exact ⟨PodManager.StopResult.notRunning, by rw [mgrNoOp m env hm]⟩
    | true => exact ⟨PodManager.StopResult.stopped m.pod_name,
        by rw [PodManager.stop_pod_ok m env hm hdel]⟩
  have mgrSecond : PodManager.stop_pod (PodManager.stop_pod m env).2.1 env2 =
      (Except.ok PodManager.StopResult.notRunning, (PodManager.stop_pod m env).2.1, []) := by
    cases hm : m.started with
    | false =>
      rw [mgrNoOp m env hm]
      exact mgrNoOp m env2 hm
    | true =>
      rw [PodManager.stop_pod_ok m env hm hdel]
      exact mgrNoOp _ env2 rfl
  have facFirst : ∃ u, (PodFacade.PodSandbox.stop s fenv).1 = Except.ok u := by
    cases hs : s.started with
    | false => exact ⟨(), by rw [facNoOp s fenv hs]⟩
    | true =>
      cases hpm : s.pod_manager with
      | none => exact ⟨(), by simp [PodFacade.PodSandbox.stop, hs, hpm]⟩
      | some mm =>
        cases hmm : mm.started with
        | false => exact ⟨(), by simp [PodFacade.PodSandbox.stop, hs, hpm,
            mgrNoOp mm fenv hmm]⟩
        | true => exact ⟨(), by simp [PodFacade.PodSandbox.stop, hs, hpm,
            PodManager.stop_pod_ok mm fenv hmm hfdel]⟩
  have facSecond : PodFacade.PodSandbox.stop (PodFacade.PodSandbox.stop s fenv).2.1 fenv2 =
      (Except.ok (), (PodFacade.PodSandbox.stop s fenv).2.1, []) := by
    cases hs : s.started with
    | false =>
      rw [facNoOp s fenv hs]
      exact facNoOp s fenv2 hs
    | true =>
      cases hpm : s.pod_manager with
      | none =>
        have h1 : PodFacade.PodSandbox.stop s fenv = (Except.ok (), s, []) := by
          simp [PodFacade.PodSandbox.stop, hs, hpm]
        rw [h1]
        simp [PodFacade.PodSandbox.stop, hs, hpm]
      | some mm =>
        cases hmm : mm.started with
        | false =>
          have h1 : PodFacade.PodSandbox.stop s fenv =
              (Except.ok (), { s with started := false, pod_manager := none }, []) := by
            simp [PodFacade.PodSandbox.stop, hs, hpm, mgrNoOp mm fenv hmm]
          rw [h1]
          exact facNoOp _ fenv2 rfl
        | true =>
          have h1 : PodFacade.PodSandbox.stop s fenv =
              (Except.ok (), { s with started := false, pod_manager := none },
               [PodManager.SchedAction.deleteService mm.service_name mm.ns,
                PodManager.SchedAction.deletePod mm.pod_name mm.ns]) := by
            simp [PodFacade.PodSandbox.stop, hs, hpm,
              PodManager.stop_pod_ok mm fenv hmm hfdel]
          rw [h1]
          exact facNoOp _ fenv2 rfl
  exact ⟨fun hm e => mgrNoOp m e hm, mgrFirst, mgrSecond,
    fun hs e => facNoOp s e hs, facFirst, facSecond⟩

/-- Witness for C8: two concrete stops in a row on the started manager and
facade: the second is a no-op on both layers. -/
theorem stop_idempotent_witness :
    PodManager.stop_pod
        (PodManager.stop_pod Fixtures.mStarted Fixtures.okStopEnv).2.1 Fixtures.okStopEnv =
      (Except.ok PodManager.StopResult.notRunning,
       (PodManager.stop_pod Fixtures.mStarted Fixtures.okStopEnv).2.1, []) ∧
    PodFacade.PodSandbox.stop
        (PodFacade.PodSandbox.stop Fixtures.sStarted Fixtures.okStopEnv).2.1 Fixtures.okStopEnv =
      (Except.ok (),
       (PodFacade.PodSandbox.stop Fixtures.sStarted Fixtures.okStopEnv).2.1, []) := by
  have h := stop_idempotent Fixtures.mStarted Fixtures.sStarted Fixtures.okStopEnv
    Fixtures.okStopEnv Fixtures.okStopEnv Fixtures.okStopEnv rfl rfl
  exact ⟨h.2.2.1, h.2.2.2.2.2⟩

